import Mathlib

/-!
Shallow embedding of `sgx-panic-backtrace` (src/lib.rs) and proofs of the
spec's claims about it.

Modelling conventions:
* `usize`/`u64` values (instruction pointers, the image base) are `Nat`;
  Rust's `saturating_sub` on unsigned integers is exactly truncated `Nat`
  subtraction for in-range values, so no explicit `% 2^64` is needed.
* Each `println!` emits one line; the output of `print_backtrace_frames` is
  the list of lines it prints, in order.
* The panic hook's observable behaviour is a list of `Event`s: lines printed
  to stdout, the stdout flush (with the result the environment returned for
  it), and — for reasoning about error propagation — a `panicked` event that
  a handler WOULD emit if it escalated a failure. The code under
  verification never emits `panicked`.
* The process-wide panic-hook slot (`panic::take_hook` / `panic::set_hook`)
  is a field of a `Process` record; `set_panic_hook` is a `Process`
  transformer.
-/

namespace SgxPanicBacktrace

/-- Observable effects of a panic handler: a line printed to stdout via
`println!`, the `stdout().flush()` call together with the result the stream
reported for it, and a (hypothetical) escalated secondary failure. -/
inductive Event where
  | println (line : String)
  | flush (result : Except String Unit)
  | panicked (msg : String)

/-- Embedding of `image_base` for every target other than
`x86_64-fortanix-unknown-sgx` (src/lib.rs lines 83–86): it returns the
constant `0`. It is a total function of no arguments — it has no failure
mode. -/
def image_base : Nat := 0

/-- Rendering of Rust's `{:#x}` format for an unsigned integer: the prefix
`0x` followed by the number's digits in lowercase hexadecimal, with no
leading zeros (`0` renders as `0x0`). `Nat.toDigits 16` produces exactly
the lowercase hexadecimal digit string. -/
def hexRender (n : Nat) : String :=
  "0x" ++ String.mk (Nat.toDigits 16 n)

/-- Rendering of Rust's `{:>4}` format: the decimal rendering of the number,
right-aligned with spaces to a minimum width of 4 characters. -/
def padRightAlign4 (s : String) : String :=
  String.mk (List.replicate (4 - s.length) ' ') ++ s

/-- One frame line, as printed by `println!("{frame_idx:>4}: {ip:#x}")`
(src/lib.rs line 101). -/
def frameLine (frame_idx ip : Nat) : String :=
  padRightAlign4 (toString frame_idx) ++ ": " ++ hexRender ip

/-- The loop performed by `backtrace::trace_unsynchronized` with the closure
of src/lib.rs lines 95–108: the input list holds the absolute instruction
pointer `frame.ip()` of each active frame, innermost first. For each frame
the closure queries `image_base()` (whose value is the parameter
`base_value`), computes `ip.saturating_sub(base_addr)` and prints one frame
line, then returns `true` so the walk continues until frames are exhausted.
Returns the printed lines together with the number of `image_base()`
queries performed. -/
def traceFrames (base_value : Nat) : Nat → List Nat → List String × Nat
  | _, [] => ([], 0)
  | frame_idx, ip :: rest =>
    let base_addr := base_value
    let off := ip - base_addr
    let r := traceFrames base_value (frame_idx + 1) rest
    (frameLine frame_idx off :: r.1, r.2 + 1)

/-- Embedding of `print_backtrace_frames` (src/lib.rs lines 90–111),
generalized over the value `base_value` that the `image_base()` queries
return (on non-SGX targets it is `image_base = 0`): prints the header line,
then one line per frame starting at `frame_idx = 0`, then one blank line. -/
def print_backtrace_frames (base_value : Nat) (ips : List Nat) : List String :=
  "stack backtrace:" :: (traceFrames base_value 0 ips).1 ++ [""]

/-- Number of `image_base()` queries performed by one run of
`print_backtrace_frames` on a stack with the given frames. -/
def image_base_queries (ips : List Nat) : Nat :=
  (traceFrames image_base 0 ips).2

/-- Everything the installed hook's behaviour can depend on at panic time:
the panic descriptor's standard rendering (`{panic_info}`), the value the
`image_base()` queries return, the instruction pointers of the active
frames, and the result the stdout stream reports for the flush. -/
structure PanicContext where
  panic_info : String
  base_value : Nat
  ips : List Nat
  flush_result : Except String Unit

/-- A panic handler: given the context at panic time, the list of events it
performs, in order. -/
def Hook : Type := PanicContext → List Event

/-- Body of the closure installed by `set_panic_hook` (src/lib.rs lines
119–133): print `"enclave panic: {panic_info}"`, run
`print_backtrace_frames`, flush stdout with `let _ = ...` (the result is
recorded in the trace but the continuation does not depend on it), then
invoke the previously installed hook with the same descriptor. -/
def hook_body (prev_hook : Hook) : Hook := fun ctx =>
  Event.println ("enclave panic: " ++ ctx.panic_info)
    :: ((print_backtrace_frames ctx.base_value ctx.ips).map Event.println
      ++ (Event.flush ctx.flush_result
        :: prev_hook ctx))

/-- Process-wide state relevant to this library: the currently registered
panic hook, and the diagnostic output written so far. -/
structure Process where
  hook : Hook
  output : List Event

/-- Embedding of `set_panic_hook` (src/lib.rs lines 117–134): take the
current hook (`panic::take_hook`), register the wrapping closure
(`panic::set_hook`). The body contains no printing or flushing, so the
process output is untouched at install time. -/
def set_panic_hook (p : Process) : Process :=
  let prev_hook := p.hook
  { p with hook := hook_body prev_hook }

/-- The print+trace+flush part of one hook invocation (everything the
installed closure does before delegating to the previous hook). -/
def cycleEvents (ctx : PanicContext) : List Event :=
  Event.println ("enclave panic: " ++ ctx.panic_info)
    :: (print_backtrace_frames ctx.base_value ctx.ips).map Event.println
    ++ [Event.flush ctx.flush_result]

/-- Full byte stream produced by a sequence of `println!` calls: each line
followed by a newline character. -/
def renderOutput (lines : List String) : String :=
  String.join (lines.map fun l => l ++ "\x0a")

/-! ### Helper lemmas -/

/-- Unrolling `traceFrames`: the running `frame_idx` counter makes the lines
exactly the enumeration of the frames starting at the counter's initial
value. -/
theorem traceFrames_fst (base_value k : Nat) (ips : List Nat) :
    (traceFrames base_value k ips).1
      = (List.enumFrom k ips).map fun pr => frameLine pr.1 (pr.2 - base_value) := by
  induction ips generalizing k with
  | nil => rfl
  | cons ip rest ih => simp [traceFrames, List.enumFrom, ih]

/-- The frame walk queries `image_base()` exactly once per frame. -/
theorem traceFrames_snd (base_value k : Nat) (ips : List Nat) :
    (traceFrames base_value k ips).2 = ips.length := by
  induction ips generalizing k with
  | nil => rfl
  | cons ip rest ih => simp [traceFrames, ih]

/-- The indices produced by enumeration from `k` are `k, k+1, ...`. -/
theorem enumFrom_map_fst_eq (k : Nat) (l : List Nat) :
    (List.enumFrom k l).map Prod.fst = List.range' k l.length := by
  induction l generalizing k with
  | nil => rfl
  | cons x xs ih => simp [List.enumFrom, List.range', ih]

/-- Position `i` of the frame-line list (for `i` in range). -/
theorem traceFrames_getD (base_value k : Nat) (ips : List Nat) (i : Nat)
    (h : i < ips.length) :
    ((traceFrames base_value k ips).1).getD i ""
      = frameLine (k + i) (ips.getD i 0 - base_value) := by
  induction ips generalizing k i with
  | nil => simp at h
  | cons ip rest ih =>
    cases i with
    | zero => simp [traceFrames]
    | succ j =>
      have hj : j < rest.length := by simpa using h
      have hk : k + 1 + j = k + (j + 1) := by omega
      have ih2 := ih (k + 1) j hj
      simp only [hk] at ih2
      simpa [traceFrames] using ih2

/-- Line `i + 1` of the printed backtrace (for `i` in range) is the frame
line for frame `i`, carrying the saturating offset. -/
theorem print_backtrace_frames_getD (base_value : Nat) (ips : List Nat) (i : Nat)
    (h : i < ips.length) :
    (print_backtrace_frames base_value ips).getD (i + 1) ""
      = frameLine i (ips.getD i 0 - base_value) := by
  have hlen : i < (traceFrames base_value 0 ips).1.length := by
    rw [traceFrames_fst]
    simpa using h
  have happ :
      ((traceFrames base_value 0 ips).1 ++ [""]).getD i ""
        = ((traceFrames base_value 0 ips).1).getD i "" :=
    List.getD_append _ _ _ _ hlen
  calc (print_backtrace_frames base_value ips).getD (i + 1) ""
      = ((traceFrames base_value 0 ips).1 ++ [""]).getD i "" := rfl
    _ = ((traceFrames base_value 0 ips).1).getD i "" := happ
    _ = frameLine (0 + i) (ips.getD i 0 - base_value) := traceFrames_getD _ _ _ _ h
    _ = frameLine i (ips.getD i 0 - base_value) := by rw [Nat.zero_add]

/-- Wrapping behaviour of the installed closure: one print+trace+flush cycle
followed by the delegated events of the previous hook. -/
theorem hook_body_eq_cycle (prev_hook : Hook) (ctx : PanicContext) :
    hook_body prev_hook ctx = cycleEvents ctx ++ prev_hook ctx := by
  simp [hook_body, cycleEvents]

/-! ### Claim theorems -/

/-- C1: for every stack with N active frames (N ≥ 0), `print_backtrace_frames`
prints the fixed header line `"stack backtrace:"`, then exactly N frame lines
whose indices form the exact sequence 0..N-1 in increasing order — each line
rendering the index right-aligned to minimum width 4, then `": "`, then the
offset in lowercase hexadecimal with a `0x` prefix (the content of
`frameLine`) — followed by exactly one blank line; with zero frames the
output is exactly the header followed by one blank line. -/
theorem print_backtrace_frames_output (base_value : Nat) (ips : List Nat) :
    print_backtrace_frames base_value ips
        = "stack backtrace:"
            :: (ips.enum.map fun pr => frameLine pr.1 (pr.2 - base_value)) ++ [""]
      ∧ ips.enum.map Prod.fst = List.range ips.length
      ∧ (ips.enum.map fun pr => frameLine pr.1 (pr.2 - base_value)).length
          = ips.length
      ∧ print_backtrace_frames base_value [] = ["stack backtrace:", ""] := by
  refine ⟨?_, ?_, by simp, rfl⟩
  · unfold print_backtrace_frames
    rw [traceFrames_fst]
    rfl
  · rw [List.enum, enumFrom_map_fst_eq, List.range_eq_range']

/-- C2: each invocation of the hook installed by `set_panic_hook` performs,
strictly in this order: (a) one `"enclave panic: "`-prefixed line carrying
the descriptor's standard rendering, before any backtrace output; (b) the
frame tracer's output; (c) the stdout flush; (d) the events of the
previously installed hook, invoked with the same descriptor. -/
theorem installed_hook_ordering (p : Process) (ctx : PanicContext) :
    (set_panic_hook p).hook ctx
      = Event.println ("enclave panic: " ++ ctx.panic_info)
          :: ((print_backtrace_frames ctx.base_value ctx.ips).map Event.println
            ++ (Event.flush ctx.flush_result :: p.hook ctx)) := rfl

/-- C3 counterexample: on a concrete two-frame stack, `image_base` is
queried twice during one backtrace — not exactly once per traced stack as
the claim states. -/
theorem image_base_queries_two_frames :
    image_base_queries [0x401b09, 0x4013f6] = 2
      ∧ image_base_queries [0x401b09, 0x4013f6] ≠ 1 := by
  constructor
  · rfl
  · decide

/-- C3 amended: during one backtrace, `image_base` is queried once per
traced frame (N queries for a stack with N frames), inside the per-frame
callback; the queried value is a constant of the process, so every frame's
offset is still computed against the same base value. -/
theorem image_base_queried_once_per_frame (ips : List Nat) :
    image_base_queries ips = ips.length :=
  traceFrames_snd image_base 0 ips

/-- C4: the printed relative offset of every frame equals the frame's
absolute instruction pointer minus the base computed with saturating
(clamped-to-0) unsigned subtraction: over the integers it is
`max (ip - base) 0`, and whenever the instruction pointer is below the base
the printed offset is 0 — never a wrapped-around huge value. -/
theorem printed_offset_saturating (base_value : Nat) (ips : List Nat) (i : Nat)
    (h : i < ips.length) :
    (print_backtrace_frames base_value ips).getD (i + 1) ""
        = frameLine i (ips.getD i 0 - base_value)
      ∧ ((ips.getD i 0 - base_value : Nat) : Int)
          = max ((ips.getD i 0 : Int) - (base_value : Int)) 0
      ∧ (ips.getD i 0 < base_value → ips.getD i 0 - base_value = 0) := by
  refine ⟨print_backtrace_frames_getD _ _ _ h, ?_, fun hlt => by omega⟩
  rcases Nat.le_total base_value (ips.getD i 0) with hle | hle
  · have h0 : (0 : Int) ≤ (ips.getD i 0 : Int) - (base_value : Int) := by
      have := (Nat.cast_le (α := Int)).mpr hle
      omega
    rw [Nat.cast_sub hle, max_eq_left h0]
  · have h0 : (ips.getD i 0 : Int) - (base_value : Int) ≤ 0 := by
      have := (Nat.cast_le (α := Int)).mpr hle
      omega
    rw [Nat.sub_eq_zero_of_le hle, max_eq_right h0]
    exact Nat.cast_zero

/-- C4 witness: the spec's scenario — base `0x400000`, first frame at
`0x401b09` — prints offset `0x1b09` at index 0. -/
theorem printed_offset_saturating_witness :
    (print_backtrace_frames 0x400000 [0x401b09, 0x4013f6]).getD 1 ""
      = frameLine 0 0x1b09 := by
  have h :=
    (printed_offset_saturating 0x400000 [0x401b09, 0x4013f6] 0 (by decide)).1
  exact h.trans (by decide)

/-- C5: when the stdout flush reports an error, the error is discarded: the
installed hook still performs its full cycle and then delegates to the
previous hook with the same descriptor, and its own part of the trace
contains no escalated secondary failure (`Event.panicked`). -/
theorem flush_failure_discarded (p : Process) (info : String) (base_value : Nat)
    (ips : List Nat) (e : String) :
    (set_panic_hook p).hook ⟨info, base_value, ips, Except.error e⟩
        = cycleEvents ⟨info, base_value, ips, Except.error e⟩
            ++ p.hook ⟨info, base_value, ips, Except.error e⟩
      ∧ ∀ m, Event.panicked m ∉ cycleEvents ⟨info, base_value, ips, Except.error e⟩ := by
  constructor
  · exact hook_body_eq_cycle p.hook _
  · intro m hm
    simp [cycleEvents] at hm

/-- C6: each call to `set_panic_hook` wraps the hook installed at call time,
so after N calls a panic produces N print+trace+flush cycles, each wrapper's
cycle preceding the events of the hook it wrapped (reverse installation
order), eventually delegating to the originally installed hook; after two
calls a panic triggers two cycles, the second-installed wrapper's cycle
first, before the original hook's events. -/
theorem set_panic_hook_chains (n : Nat) (p : Process) (ctx : PanicContext) :
    (set_panic_hook^[n] p).hook ctx
        = (List.replicate n (cycleEvents ctx)).flatten ++ p.hook ctx
      ∧ (set_panic_hook (set_panic_hook p)).hook ctx
          = cycleEvents ctx ++ (cycleEvents ctx ++ p.hook ctx) := by
  constructor
  · induction n with
    | zero => simp
    | succ m ih =>
      rw [Function.iterate_succ_apply']
      calc (set_panic_hook (set_panic_hook^[m] p)).hook ctx
          = cycleEvents ctx ++ (set_panic_hook^[m] p).hook ctx :=
            hook_body_eq_cycle _ _
        _ = cycleEvents ctx
              ++ ((List.replicate m (cycleEvents ctx)).flatten ++ p.hook ctx) := by
            rw [ih]
        _ = (List.replicate (m + 1) (cycleEvents ctx)).flatten ++ p.hook ctx := by
            rw [List.replicate_succ, List.flatten_cons, List.append_assoc]
  · calc (set_panic_hook (set_panic_hook p)).hook ctx
        = cycleEvents ctx ++ (set_panic_hook p).hook ctx := hook_body_eq_cycle _ _
      _ = cycleEvents ctx ++ (cycleEvents ctx ++ p.hook ctx) :=
          congrArg (cycleEvents ctx ++ ·) (hook_body_eq_cycle p.hook ctx)

/-- C7: on any target other than the supported SGX enclave target,
`image_base` is the constant 0 — a total function with no failure mode — so
every frame's printed offset is the frame's absolute instruction pointer;
in the spec's scenario, a frame at `0x1b09d9` prints as `   0: 0x1b09d9`. -/
theorem image_base_non_sgx (ips : List Nat) :
    image_base = 0
      ∧ print_backtrace_frames image_base ips
          = "stack backtrace:" :: (ips.enum.map fun pr => frameLine pr.1 pr.2) ++ [""]
      ∧ print_backtrace_frames image_base [0x1b09d9]
          = ["stack backtrace:", "   0: 0x1b09d9", ""] := by
  refine ⟨rfl, ?_, by decide⟩
  unfold print_backtrace_frames
  rw [traceFrames_fst]
  simp [List.enum, image_base]

/-- C8: the trace output is deterministic — two runs of
`print_backtrace_frames` on an unchanged stack (equal frame instruction
pointers and equal base value) produce byte-identical output. -/
theorem trace_output_deterministic (b1 b2 : Nat) (s1 s2 : List Nat)
    (hb : b1 = b2) (hs : s1 = s2) :
    renderOutput (print_backtrace_frames b1 s1)
      = renderOutput (print_backtrace_frames b2 s2) := by
  rw [hb, hs]

/-- C8 witness: two runs on the two-frame scenario stack agree. -/
theorem trace_output_deterministic_witness :
    renderOutput (print_backtrace_frames 0x400000 [0x401b09, 0x4013f6])
      = renderOutput (print_backtrace_frames 0x400000 [0x401b09, 0x4013f6]) :=
  trace_output_deterministic 0x400000 0x400000 [0x401b09, 0x4013f6]
    [0x401b09, 0x4013f6] rfl rfl

/-- C9: every printed relative offset is at most the frame's absolute
instruction pointer, and on non-SGX builds (base `image_base = 0`) the
printed offset equals the instruction pointer exactly. -/
theorem printed_offset_le_ip (base_value : Nat) (ips : List Nat) (i : Nat)
    (h : i < ips.length) :
    ips.getD i 0 - base_value ≤ ips.getD i 0
      ∧ (print_backtrace_frames base_value ips).getD (i + 1) ""
          = frameLine i (ips.getD i 0 - base_value)
      ∧ (print_backtrace_frames image_base ips).getD (i + 1) ""
          = frameLine i (ips.getD i 0) := by
  refine ⟨Nat.sub_le _ _, print_backtrace_frames_getD _ _ _ h, ?_⟩
  have h0 := print_backtrace_frames_getD image_base ips i h
  simpa [image_base] using h0

/-- C9 witness: the spec's absolute-address scenario — base 0, one frame at
`0x1b09d9` — prints offset `0x1b09d9`. -/
theorem printed_offset_le_ip_witness :
    (print_backtrace_frames image_base [0x1b09d9]).getD 1 ""
      = frameLine 0 0x1b09d9 := by
  have h := (printed_offset_le_ip image_base [0x1b09d9] 0 (by decide)).2.2
  exact h.trans (by decide)

/-- C10: `set_panic_hook` itself writes nothing to the diagnostic output
stream; its only effect at install time is replacing the process-wide hook
with the closure wrapping the previously installed one. -/
theorem set_panic_hook_install_silent (p : Process) :
    (set_panic_hook p).output = p.output
      ∧ (set_panic_hook p).hook = hook_body p.hook :=
  ⟨rfl, rfl⟩

end SgxPanicBacktrace
